import Mathlib

/-!
Verification of the SDL sensor identity and lifecycle management layer
(`src/include/SDL3/SDL_sensor.h`).

The repository ships only the public header, which declares the API and
documents its contract; the implementation file is not part of the sources.
The definitions below are therefore a model of the Identity Registry, the
Open Sensor Table and the Update Cycle, built faithfully from the
specification's contracts (spec §3-§4.3, §7) and the header's documentation.
Raw sensor readings are only ever copied through unmodified, so the
floating-point values of the C API are modelled as opaque integers.
-/

set_option autoImplicit false

namespace SDLSensor

/-- `SDL_SensorType` enumeration from `src/include/SDL3/SDL_sensor.h`
(lines 131-141). `SDL_SENSOR_INVALID` is the value `-1`. -/
inductive SDL_SensorType where
  | SDL_SENSOR_INVALID
  | SDL_SENSOR_UNKNOWN
  | SDL_SENSOR_ACCEL
  | SDL_SENSOR_GYRO
  | SDL_SENSOR_ACCEL_L
  | SDL_SENSOR_GYRO_L
  | SDL_SENSOR_ACCEL_R
  | SDL_SENSOR_GYRO_R
  deriving DecidableEq

/-- Modelled from the spec: the missing implementation's Sensor Descriptor
(§3): display name, logical type, and a platform-dependent raw type code. -/
structure SensorDescriptor where
  name : String
  type : SDL_SensorType
  nonPortableType : Int
  deriving DecidableEq

/-- Modelled from the spec: the missing implementation's Open Sensor Handle
(§3): the instance identifier it was opened for, the descriptor it is backed
by, and a lazily created property-bag identifier. The `token` is the handle's
identity (the `SDL_Sensor *` of the C API). -/
structure OpenSensorHandle where
  token : Nat
  instanceId : Nat
  descriptor : SensorDescriptor
  props : Option Nat
  deriving DecidableEq

/-- Modelled from the spec: the state of the missing implementation's sensor
subsystem — Identity Registry (`nextInstanceId`, `connected`, `issued`) and
Open Sensor Table (`openHandles`, per-id shared `buffers`). `connected` is
kept in attach order; `issued` records every identifier ever allocated
(identifiers are retired but never reused, §3). Buffers exist exactly for
identifiers with at least one open handle (§4.2: polling stops when the last
handle closes). -/
structure SensorSubsystem where
  initialized : Bool
  nextInstanceId : Nat
  connected : List (Nat × SensorDescriptor)
  issued : List Nat
  openHandles : List OpenSensorHandle
  buffers : List (Nat × List Int)
  nextHandleToken : Nat
  deriving DecidableEq

/-- Modelled from the spec: the subsystem right after initialization —
no sensors, no handles, identifier allocation starts at 1 (§4.1). -/
def initState : SensorSubsystem :=
  { initialized := true
    nextInstanceId := 1
    connected := []
    issued := []
    openHandles := []
    buffers := []
    nextHandleToken := 1 }

/-- A subsystem that was never started (`SDL_Init` without the sensor flag). -/
def uninitState : SensorSubsystem :=
  { initState with initialized := false }

/-- Modelled from the spec: asynchronous backend attach/detach events (§6). -/
inductive BackendEvent where
  | attach (d : SensorDescriptor)
  | detach (id : Nat)

/-- Modelled from the spec: applying one backend event to the Identity
Registry (§4.1): on attach, allocate the next identifier value (starting at
1, monotonic, process-lifetime unique) and store the descriptor; on detach,
remove the descriptor but do not reclaim or reissue the identifier value. -/
def applyEvent (s : SensorSubsystem) : BackendEvent → SensorSubsystem
  | .attach d =>
      { s with
        connected := s.connected ++ [(s.nextInstanceId, d)]
        issued := s.issued ++ [s.nextInstanceId]
        nextInstanceId := s.nextInstanceId + 1 }
  | .detach id =>
      { s with connected := s.connected.filter (fun p => p.1 ≠ id) }

/-- A sequence of backend events applied in order. -/
def runEvents (s : SensorSubsystem) (es : List BackendEvent) : SensorSubsystem :=
  es.foldl applyEvent s

/-- Error taxonomy of the spec (§7). -/
inductive SensorError where
  | SubsystemNotInitialized
  | NotFound
  | InvalidHandle
  | AllocationFailure
  deriving DecidableEq

/-- Modelled from the spec: `descriptor_for(id)` of the Identity Registry
(§4.1) — the descriptor if `id` is currently connected, else absent. -/
def lookupConnected (s : SensorSubsystem) (id : Nat) : Option SensorDescriptor :=
  (s.connected.find? (fun p => p.1 == id)).map Prod.snd

/-- Modelled from the spec: resolving an `SDL_Sensor *` to its Open Sensor
Table entry (§4.2 `lookup`). -/
def lookupHandle (s : SensorSubsystem) (tok : Nat) : Option OpenSensorHandle :=
  s.openHandles.find? (fun oh => oh.token == tok)

/-- The shared per-identifier data buffer, when some handle for `id` is open. -/
def bufferFor (s : SensorSubsystem) (id : Nat) : Option (List Int) :=
  (s.buffers.find? (fun p => p.1 == id)).map Prod.snd

/-- Modelled from the spec: `enumerate()` of the Identity Registry (§4.1) —
every currently connected sensor's identifier, snapshot at call time, in
attach order; empty sequence (not an error) when none are connected; fails
with `SubsystemNotInitialized` if the subsystem was never started. This is
the core of `SDL_GetSensors`. -/
def enumerate (s : SensorSubsystem) : Except SensorError (List Nat) :=
  if s.initialized then .ok (s.connected.map Prod.fst)
  else .error .SubsystemNotInitialized

/-- Modelled from the spec: `SDL_GetSensors` (header lines 146-156) — on
success a 0-terminated array of the connected instance identifiers together
with the out-parameter `count`; `NULL` (here `none`) on error. -/
def SDL_GetSensors (s : SensorSubsystem) : Option (List Nat × Nat) :=
  match enumerate s with
  | .ok ids => some (ids ++ [0], ids.length)
  | .error _ => none

/-- Modelled from the spec: `open(id)` of the Open Sensor Table (§4.2) —
fails with `NotFound` if `id` is not currently connected; on success creates
and registers a new, distinct handle; multiple opens of one identifier share
one data buffer (the buffer is created for the first open only). -/
def openSensor (s : SensorSubsystem) (id : Nat) :
    Except SensorError (Nat × SensorSubsystem) :=
  match lookupConnected s id with
  | none => .error .NotFound
  | some d =>
      let tok := s.nextHandleToken
      .ok (tok,
        { s with
          openHandles :=
            s.openHandles ++ [{ token := tok, instanceId := id, descriptor := d, props := none }]
          nextHandleToken := tok + 1
          buffers :=
            if (bufferFor s id).isSome then s.buffers
            else s.buffers ++ [(id, [])] })

/-- The state after a successful `openSensor` (unchanged state when the open
failed); the returned token is `s.nextHandleToken`. -/
def openResultState (s : SensorSubsystem) (id : Nat) : SensorSubsystem :=
  match openSensor s id with
  | .ok r => r.2
  | .error _ => s

/-- Modelled from the spec: `close(handle)` of the Open Sensor Table (§4.2) —
idempotent removal; closing an already-closed handle is a no-op, not an
error; once the last handle referencing an identifier is closed its buffer
is dropped (backend polling for it stops). -/
def closeSensor (s : SensorSubsystem) (tok : Nat) : SensorSubsystem :=
  match lookupHandle s tok with
  | none => s
  | some oh =>
      let remaining := s.openHandles.filter (fun h => h.token ≠ tok)
      { s with
        openHandles := remaining
        buffers :=
          if remaining.any (fun h => h.instanceId == oh.instanceId) then s.buffers
          else s.buffers.filter (fun p => p.1 ≠ oh.instanceId) }

/-- Modelled from the spec: `read(handle, out_buffer, count)` (§4.2,
`SDL_GetSensorData`) — copies up to `count` values from the handle's current
data buffer; if `count` exceeds the available values only those are written,
and the result (the returned list, whose length the caller observes) reports
how many; fails with `InvalidHandle` if the handle was closed. -/
def readSensor (s : SensorSubsystem) (tok : Nat) (count : Nat) :
    Except SensorError (List Int) :=
  match lookupHandle s tok with
  | none => .error .InvalidHandle
  | some oh => .ok (((bufferFor s oh.instanceId).getD []).take count)

/-- Modelled from the spec: `update()` (§4.3, `SDL_UpdateSensors`) — for
every open handle, poll the backend for the newest reading of the underlying
physical sensor and overwrite the shared buffer; if the physical sensor has
disconnected, the buffer is left unchanged (stale-but-valid, the "last known
good" policy). `poll id` is the Backend Adapter's newest reading for the
physical sensor behind identifier `id`. -/
def updateSensors (poll : Nat → List Int) (s : SensorSubsystem) : SensorSubsystem :=
  { s with
    buffers := s.buffers.map (fun p =>
      if (lookupConnected s p.1).isSome then (p.1, poll p.1) else p) }

/-- Modelled from the spec: `SDL_GetSensorName` (header lines 226-236) —
the sensor name, or `NULL` if `sensor` is `NULL`. A `NULL` handle pointer is
modelled as `none`. -/
def SDL_GetSensorName (s : SensorSubsystem) (sensor : Option Nat) : Option String :=
  match sensor.bind (lookupHandle s) with
  | none => none
  | some oh => some oh.descriptor.name

/-- Modelled from the spec: `SDL_GetSensorType` (header lines 238-247) —
the `SDL_SensorType`, or `SDL_SENSOR_INVALID` if `sensor` is `NULL`. -/
def SDL_GetSensorType (s : SensorSubsystem) (sensor : Option Nat) : SDL_SensorType :=
  match sensor.bind (lookupHandle s) with
  | none => .SDL_SENSOR_INVALID
  | some oh => oh.descriptor.type

/-- Modelled from the spec: `SDL_GetSensorNonPortableType` (header lines
249-257) — the platform dependent type, or `-1` if `sensor` is `NULL`. -/
def SDL_GetSensorNonPortableType (s : SensorSubsystem) (sensor : Option Nat) : Int :=
  match sensor.bind (lookupHandle s) with
  | none => -1
  | some oh => oh.descriptor.nonPortableType

/-- Modelled from the spec: `SDL_GetSensorInstanceID` (header lines 259-267)
— the sensor instance ID, or `0` (the reserved invalid identifier) if
`sensor` is `NULL`. -/
def SDL_GetSensorInstanceID (s : SensorSubsystem) (sensor : Option Nat) : Nat :=
  match sensor.bind (lookupHandle s) with
  | none => 0
  | some oh => oh.instanceId

/-- Invariant of the Identity Registry maintained by backend events: the
allocation history is exactly `1, 2, ..., nextInstanceId - 1`, and the
connected table keys are strictly increasing issued identifiers. -/
def RegistryInv (s : SensorSubsystem) : Prop :=
  1 ≤ s.nextInstanceId ∧
  s.issued = List.range' 1 (s.nextInstanceId - 1) ∧
  (s.connected.map Prod.fst).Pairwise (· < ·) ∧
  (∀ p ∈ s.connected, 1 ≤ p.1 ∧ p.1 < s.nextInstanceId)

/-- Invariant of the Open Sensor Table: handle tokens are below the
allocation counter (so they are pairwise distinct), and every buffer belongs
to an identifier with at least one open handle. -/
abbrev TableInv (s : SensorSubsystem) : Prop :=
  (∀ h ∈ s.openHandles, h.token < s.nextHandleToken) ∧
  (∀ p ∈ s.buffers, ∃ h ∈ s.openHandles, h.instanceId = p.1)

/-- Two sample descriptors used in concrete scenarios: an accelerometer and
a gyroscope. -/
def accelDesc : SensorDescriptor :=
  { name := "accelerometer A", type := .SDL_SENSOR_ACCEL, nonPortableType := 10 }

def gyroDesc : SensorDescriptor :=
  { name := "gyroscope B", type := .SDL_SENSOR_GYRO, nonPortableType := 11 }

theorem registryInv_initState : RegistryInv initState := by
  refine ⟨le_refl 1, rfl, List.Pairwise.nil, ?_⟩
  intro p hp
  simp [initState] at hp

theorem registryInv_applyEvent (s : SensorSubsystem) (e : BackendEvent)
    (h : RegistryInv s) : RegistryInv (applyEvent s e) := by
  obtain ⟨h1, h2, h3, h4⟩ := h
  cases e with
  | attach d =>
      refine ⟨by simp [applyEvent], ?_, ?_, ?_⟩
      · show s.issued ++ [s.nextInstanceId] = List.range' 1 (s.nextInstanceId + 1 - 1)
        have hk : s.nextInstanceId + 1 - 1 = (s.nextInstanceId - 1) + 1 := by omega
        rw [h2, hk, List.range'_1_concat]
        have : 1 + (s.nextInstanceId - 1) = s.nextInstanceId := by omega
        rw [this]
      · show ((s.connected ++ [(s.nextInstanceId, d)]).map Prod.fst).Pairwise (· < ·)
        rw [List.map_append, List.pairwise_append]
        refine ⟨h3, by simp, ?_⟩
        intro a ha b hb
        simp only [List.map_cons, List.map_nil, List.mem_singleton] at hb
        subst hb
        obtain ⟨p, hp, hpa⟩ := List.mem_map.mp ha
        exact hpa ▸ (h4 p hp).2
      · intro p hp
        show 1 ≤ p.1 ∧ p.1 < s.nextInstanceId + 1
        rcases List.mem_append.mp hp with hmem | hmem
        · have := h4 p hmem; omega
        · simp only [List.mem_singleton] at hmem
          subst hmem
          constructor
          · exact h1
          · omega
  | detach id =>
      refine ⟨h1, h2, ?_, ?_⟩
      · exact List.Pairwise.sublist ((List.filter_sublist s.connected).map Prod.fst) h3
      · intro p hp
        exact h4 p (List.mem_of_mem_filter hp)

theorem registryInv_runEvents (es : List BackendEvent) (s : SensorSubsystem)
    (h : RegistryInv s) : RegistryInv (runEvents s es) := by
  induction es generalizing s with
  | nil => exact h
  | cons e es ih => exact ih (applyEvent s e) (registryInv_applyEvent s e h)

/-- Backend events never touch the Open Sensor Table: neither attach nor
detach changes the set of open handles or the data buffers. -/
theorem applyEvent_openHandles (s : SensorSubsystem) (e : BackendEvent) :
    (applyEvent s e).openHandles = s.openHandles ∧
    (applyEvent s e).buffers = s.buffers := by
  cases e <;> exact ⟨rfl, rfl⟩

/-- C1: over every sequence of backend attach/detach events, the issued
identifiers are exactly `1, 2, ..., nextInstanceId - 1` (allocation starts
at 1 and is monotonically increasing), the value 0 is never issued, no
identifier is issued twice across the process lifetime, and no two
currently-connected sensors hold the same identifier. -/
theorem C1_instance_id_lifecycle (es : List BackendEvent) :
    (runEvents initState es).issued =
      List.range' 1 ((runEvents initState es).nextInstanceId - 1) ∧
    0 ∉ (runEvents initState es).issued ∧
    (runEvents initState es).issued.Pairwise (· < ·) ∧
    (runEvents initState es).issued.Nodup ∧
    ((runEvents initState es).connected.map Prod.fst).Nodup ∧
    (∀ i ∈ (runEvents initState es).issued, 1 ≤ i) := by
  obtain ⟨h1, h2, h3, h4⟩ := registryInv_runEvents es initState registryInv_initState
  refine ⟨h2, ?_, ?_, ?_, ?_, ?_⟩
  · rw [h2]
    intro hmem
    have := List.mem_range'_1.mp hmem
    omega
  · rw [h2]
    exact List.pairwise_lt_range' 1 _
  · rw [h2]
    exact List.nodup_range' 1 _
  · exact h3.imp Nat.ne_of_lt
  · intro i hi
    rw [h2] at hi
    exact (List.mem_range'_1.mp hi).1

/-- Backend events never change whether the subsystem is initialized. -/
theorem runEvents_initialized (es : List BackendEvent) (s : SensorSubsystem) :
    (runEvents s es).initialized = s.initialized := by
  induction es generalizing s with
  | nil => rfl
  | cons e es ih =>
      rw [runEvents, List.foldl_cons, ← runEvents, ih]
      cases e <;> rfl

/-- C6: `enumerate` on any state reached by backend events from a fresh
subsystem returns (not errors) the connected identifiers in attach order
(their list is strictly increasing, the order identifiers were allocated
in); with two sensors attached in order it returns `[1, 2]`; with no sensor
connected it returns the empty sequence; and on a subsystem that was never
started it fails with `SubsystemNotInitialized`. -/
theorem C6_enumerate_contract (es : List BackendEvent) :
    enumerate (runEvents initState es) =
      .ok ((runEvents initState es).connected.map Prod.fst) ∧
    ((runEvents initState es).connected.map Prod.fst).Pairwise (· < ·) ∧
    enumerate (runEvents initState [.attach accelDesc, .attach gyroDesc]) = .ok [1, 2] ∧
    enumerate (runEvents initState []) = .ok [] ∧
    enumerate uninitState = .error .SubsystemNotInitialized := by
  obtain ⟨-, -, h3, -⟩ := registryInv_runEvents es initState registryInv_initState
  refine ⟨?_, h3, rfl, rfl, rfl⟩
  rw [enumerate, runEvents_initialized]
  rfl

/-- C10: on every state reached from a fresh subsystem, `SDL_GetSensors`
succeeds with an array of exactly `count` identifiers followed by a
terminating `0`, every identifier before the terminator is positive (so no
valid entry equals the terminator), and on an uninitialized subsystem it
returns `NULL`. -/
theorem C10_getSensors_zero_terminated (es : List BackendEvent) :
    (∃ ids, SDL_GetSensors (runEvents initState es) = some (ids ++ [0], ids.length) ∧
      ∀ x ∈ ids, 0 < x) ∧
    SDL_GetSensors uninitState = none := by
  obtain ⟨-, -, -, h4⟩ := registryInv_runEvents es initState registryInv_initState
  refine ⟨⟨(runEvents initState es).connected.map Prod.fst, ?_, ?_⟩, rfl⟩
  · rw [SDL_GetSensors, enumerate, runEvents_initialized]
    rfl
  · intro x hx
    obtain ⟨p, hp, hpx⟩ := List.mem_map.mp hx
    have := h4 p hp
    omega

/-- C9: every per-handle query given a `NULL` handle returns its documented
sentinel: `SDL_GetSensorName` returns `NULL`, `SDL_GetSensorType` returns
`SDL_SENSOR_INVALID`, `SDL_GetSensorNonPortableType` returns `-1`, and
`SDL_GetSensorInstanceID` returns `0`, the reserved invalid identifier. -/
theorem C9_null_handle_sentinels (s : SensorSubsystem) :
    SDL_GetSensorName s none = none ∧
    SDL_GetSensorType s none = .SDL_SENSOR_INVALID ∧
    SDL_GetSensorNonPortableType s none = -1 ∧
    SDL_GetSensorInstanceID s none = 0 :=
  ⟨rfl, rfl, rfl, rfl⟩

/-- After `closeSensor s tok`, no table entry with token `tok` remains. -/
theorem lookupHandle_closeSensor_self (s : SensorSubsystem) (tok : Nat) :
    lookupHandle (closeSensor s tok) tok = none := by
  rw [closeSensor]
  split
  · assumption
  · rw [lookupHandle]
    refine List.find?_eq_none.mpr ?_
    intro x hx
    have hne := (List.mem_filter.mp hx).2
    simp only [decide_eq_true_eq] at hne
    simp [hne]

/-- Closing a token with no open handle leaves the state unchanged. -/
theorem closeSensor_not_open (s : SensorSubsystem) (tok : Nat)
    (h : lookupHandle s tok = none) : closeSensor s tok = s := by
  rw [closeSensor, h]

/-- `find?` on a key-preserving map of an association list is the map of
`find?`. -/
theorem find?_key_map (l : List (Nat × List Int)) (f : Nat × List Int → Nat × List Int)
    (hf : ∀ p, (f p).1 = p.1) (id : Nat) :
    (l.map f).find? (fun p => p.1 == id) = (l.find? (fun p => p.1 == id)).map f := by
  induction l with
  | nil => rfl
  | cons p l ih =>
      simp only [List.map_cons, List.find?_cons, hf p]
      by_cases h : p.1 = id
      · simp [h]
      · have hb : (p.1 == id) = false := by simp [h]
        rw [hb]
        exact ih

/-- A fresh subsystem with one accelerometer attached (instance id 1). -/
def attachedOne : SensorSubsystem := runEvents initState [.attach accelDesc]

/-- `attachedOne` with the sensor opened once (handle token 1). -/
def openedOne : SensorSubsystem := openResultState attachedOne 1

/-- `openedOne` with the same sensor opened a second time (handle token 2). -/
def openedTwice : SensorSubsystem := openResultState openedOne 1

/-- Sensor 1 opened (handle token 1) with buffer `[3, 4, 5]` already
published by an update. -/
def polledState : SensorSubsystem :=
  { initialized := true
    nextInstanceId := 2
    connected := [(1, accelDesc)]
    issued := [1]
    openHandles := [{ token := 1, instanceId := 1, descriptor := accelDesc, props := none }]
    buffers := [(1, [3, 4, 5])]
    nextHandleToken := 2 }

/-- Sensor 1 opened (handle token 1, buffer `[7, 8, 9]`), after which the
physical sensor detached: the descriptor is gone from the registry but the
handle and its buffer remain. -/
def detachedState : SensorSubsystem :=
  { initialized := true
    nextInstanceId := 2
    connected := []
    issued := [1]
    openHandles := [{ token := 1, instanceId := 1, descriptor := accelDesc, props := none }]
    buffers := [(1, [7, 8, 9])]
    nextHandleToken := 2 }

/-- C2: `read(handle, out, count)` on an open handle succeeds with the first
`count` values of the handle's current data buffer; when `count` exceeds the
available values only the available ones are written, the length of the
returned list (what the operation reports) being `min count available`; and
on a handle that was closed it fails with `InvalidHandle`. -/
theorem C2_read_contract (s : SensorSubsystem) (tok count : Nat)
    (oh : OpenSensorHandle) (hop : lookupHandle s tok = some oh) :
    readSensor s tok count = .ok (((bufferFor s oh.instanceId).getD []).take count) ∧
    (((bufferFor s oh.instanceId).getD []).take count).length =
      min count ((bufferFor s oh.instanceId).getD []).length ∧
    readSensor (closeSensor s tok) tok count = .error .InvalidHandle := by
  refine ⟨?_, List.length_take count _, ?_⟩
  · rw [readSensor, hop]
  · rw [readSensor, lookupHandle_closeSensor_self]

theorem C2_read_contract_witness :
    readSensor polledState 1 5 = .ok [3, 4, 5] ∧
    readSensor (closeSensor polledState 1) 1 5 = .error .InvalidHandle :=
  ⟨(C2_read_contract polledState 1 5
      { token := 1, instanceId := 1, descriptor := accelDesc, props := none } rfl).1,
   (C2_read_contract polledState 1 5
      { token := 1, instanceId := 1, descriptor := accelDesc, props := none } rfl).2.2⟩

/-- `update()` leaves the buffer of a disconnected identifier unchanged. -/
theorem bufferFor_updateSensors_disconnected (s : SensorSubsystem)
    (poll : Nat → List Int) (id : Nat) (hdet : lookupConnected s id = none) :
    bufferFor (updateSensors poll s) id = bufferFor s id := by
  rw [bufferFor, bufferFor, updateSensors]
  show ((s.buffers.map _).find? _).map Prod.snd = _
  rw [find?_key_map s.buffers _
    (fun p => by cases hc : (lookupConnected s p.1).isSome <;> simp [hc]) id]
  cases hfind : s.buffers.find? (fun p => p.1 == id) with
  | none => rfl
  | some q =>
      have hq : q.1 = id := by
        have := List.find?_some hfind
        simpa using this
      simp only [Option.map_some']
      rw [hq, hdet]
      rfl

/-- C4: a handle whose physical sensor has detached stays open (the detach
event does not change the Open Sensor Table), `update()` leaves its data
buffer untouched (no clearing, no zeroing), and `read()` through it still
succeeds with the last successfully polled values; only an explicit
`close()` ends this (see the read-after-close direction of C2/C5). -/
theorem C4_stale_handle (s : SensorSubsystem) (tok count : Nat)
    (oh : OpenSensorHandle) (poll : Nat → List Int)
    (hop : lookupHandle s tok = some oh)
    (hdet : lookupConnected s oh.instanceId = none) :
    (applyEvent s (.detach oh.instanceId)).openHandles = s.openHandles ∧
    bufferFor (updateSensors poll s) oh.instanceId = bufferFor s oh.instanceId ∧
    readSensor (updateSensors poll s) tok count =
      .ok (((bufferFor s oh.instanceId).getD []).take count) := by
  have hbuf := bufferFor_updateSensors_disconnected s poll oh.instanceId hdet
  refine ⟨rfl, hbuf, ?_⟩
  have hop2 : lookupHandle (updateSensors poll s) tok = some oh := hop
  rw [readSensor, hop2]
  show Except.ok (((bufferFor (updateSensors poll s) oh.instanceId).getD []).take count) = _
  rw [hbuf]

theorem C4_stale_handle_witness :
    (applyEvent detachedState (.detach 1)).openHandles = detachedState.openHandles ∧
    bufferFor (updateSensors (fun _ => [0, 0, 0]) detachedState) 1 = bufferFor detachedState 1 ∧
    readSensor (updateSensors (fun _ => [0, 0, 0]) detachedState) 1 3 = .ok [7, 8, 9] :=
  C4_stale_handle detachedState 1 3
    { token := 1, instanceId := 1, descriptor := accelDesc, props := none }
    (fun _ => [0, 0, 0]) rfl rfl

/-- C5, counterexample to the claim as stated: multiple opens of one
identifier are permitted (§4.2), so a handle obtained from `open(id)` and
then closed need not leave the table without handles for `id`. Concretely:
with sensor 1 connected and already opened once (`openedOne`), a second
`open(1)` returns handle token 2; `close` of that handle leaves the first
handle still registered for identifier 1. -/
theorem C5_close_counterexample :
    openSensor openedOne 1 = .ok (2, openedTwice) ∧
    (closeSensor openedTwice 2).openHandles.filter (fun h => h.instanceId == 1) ≠ [] := by
  constructor
  · rfl
  · decide

/-- C5, amended: in every state, `close(handle)` removes exactly the closed
handle from the Open Sensor Table — a subsequent `read` on the closed handle
fails with `InvalidHandle`, and closing the already-closed handle again is a
no-op (and `close` never errors: it is total); every other open handle,
including other handles for the same identifier, survives the close; and
when the closed handle was the only open handle for its identifier, the
table is left with no handle registered for that identifier. -/
theorem C5_close_contract (s : SensorSubsystem) (tok count : Nat) :
    readSensor (closeSensor s tok) tok count = .error .InvalidHandle ∧
    closeSensor (closeSensor s tok) tok = closeSensor s tok ∧
    (∀ oh, lookupHandle s tok = some oh →
      (∀ h ∈ s.openHandles, h.instanceId = oh.instanceId → h.token = tok) →
      (closeSensor s tok).openHandles.filter (fun h => h.instanceId == oh.instanceId) = []) ∧
    (∀ h ∈ s.openHandles, h.token ≠ tok → h ∈ (closeSensor s tok).openHandles) := by
  refine ⟨?_, closeSensor_not_open _ _ (lookupHandle_closeSensor_self s tok), ?_, ?_⟩
  · rw [readSensor, lookupHandle_closeSensor_self]
  · intro oh hop honly
    rw [closeSensor, hop]
    refine List.filter_eq_nil_iff.mpr ?_
    intro h hmem
    obtain ⟨hmem', hne⟩ := List.mem_filter.mp hmem
    simp only [decide_eq_true_eq] at hne
    intro heq
    exact hne (honly h hmem' (by simpa using heq))
  · intro h hmem hne
    rw [closeSensor]
    split
    · exact hmem
    · exact List.mem_filter.mpr ⟨hmem, by simp [hne]⟩

theorem C5_close_contract_witness :
    readSensor (closeSensor openedTwice 2) 2 7 = .error .InvalidHandle ∧
    closeSensor (closeSensor openedTwice 2) 2 = closeSensor openedTwice 2 ∧
    (closeSensor openedOne 1).openHandles.filter (fun h => h.instanceId == 1) = [] ∧
    { token := 1, instanceId := 1, descriptor := accelDesc, props := none } ∈
      (closeSensor openedTwice 2).openHandles :=
  ⟨(C5_close_contract openedTwice 2 7).1,
   (C5_close_contract openedTwice 2 7).2.1,
   (C5_close_contract openedOne 1 7).2.2.1
     { token := 1, instanceId := 1, descriptor := accelDesc, props := none }
     rfl (by decide),
   (C5_close_contract openedTwice 2 7).2.2.2
     { token := 1, instanceId := 1, descriptor := accelDesc, props := none }
     (by decide) (by decide)⟩

/-- C7: `update()` run with zero open handles is a complete no-op — the
Identity Registry and the Open Sensor Table (the whole subsystem state) are
unchanged — and it cannot produce an error (`updateSensors` is total). -/
theorem C7_update_noop (s : SensorSubsystem) (poll : Nat → List Int)
    (hzero : s.openHandles = []) (hinv : TableInv s) :
    updateSensors poll s = s := by
  have hbuf : s.buffers = [] := by
    cases hb : s.buffers with
    | nil => rfl
    | cons p l =>
        obtain ⟨h, hh, -⟩ := hinv.2 p (by rw [hb]; exact List.mem_cons_self p l)
        rw [hzero] at hh
        exact absurd hh (List.not_mem_nil h)
  cases s with
  | mk init nid conn iss oh bufs nht =>
      simp only at hbuf
      subst hbuf
      rfl

theorem C7_update_noop_witness :
    updateSensors (fun _ => [1, 2, 3]) attachedOne = attachedOne :=
  C7_update_noop attachedOne (fun _ => [1, 2, 3]) rfl (by decide)

/-- C3: for a still-connected identifier, a first `open` succeeds (with
handle token `s.nextHandleToken`), a second `open` on the same identifier
also succeeds with a distinct handle, and after any `update()` a `read`
through either handle yields identical values, because the two handles share
the one data buffer of the identifier. -/
theorem C3_double_open_shared_buffer (s : SensorSubsystem) (id : Nat)
    (d : SensorDescriptor) (poll : Nat → List Int) (count : Nat)
    (htok : ∀ h ∈ s.openHandles, h.token < s.nextHandleToken)
    (hconn : lookupConnected s id = some d) :
    openSensor s id = .ok (s.nextHandleToken, openResultState s id) ∧
    openSensor (openResultState s id) id =
      .ok (s.nextHandleToken + 1, openResultState (openResultState s id) id) ∧
    s.nextHandleToken ≠ s.nextHandleToken + 1 ∧
    readSensor (updateSensors poll (openResultState (openResultState s id) id))
        s.nextHandleToken count =
      readSensor (updateSensors poll (openResultState (openResultState s id) id))
        (s.nextHandleToken + 1) count := by
  have hopen1 : openSensor s id =
      .ok (s.nextHandleToken,
        { s with
          openHandles := s.openHandles ++
            [{ token := s.nextHandleToken, instanceId := id, descriptor := d, props := none }]
          nextHandleToken := s.nextHandleToken + 1
          buffers :=
            if (bufferFor s id).isSome then s.buffers
            else s.buffers ++ [(id, [])] }) := by
    rw [openSensor, hconn]
  have hS1 : openResultState s id =
      { s with
        openHandles := s.openHandles ++
          [{ token := s.nextHandleToken, instanceId := id, descriptor := d, props := none }]
        nextHandleToken := s.nextHandleToken + 1
        buffers :=
          if (bufferFor s id).isSome then s.buffers
          else s.buffers ++ [(id, [])] } := by
    rw [openResultState, hopen1]
  have hconn1 : lookupConnected (openResultState s id) id = some d := by
    rw [hS1]; exact hconn
  have hopen2 : openSensor (openResultState s id) id =
      .ok ((openResultState s id).nextHandleToken,
        { openResultState s id with
          openHandles := (openResultState s id).openHandles ++
            [{ token := (openResultState s id).nextHandleToken, instanceId := id,
               descriptor := d, props := none }]
          nextHandleToken := (openResultState s id).nextHandleToken + 1
          buffers :=
            if (bufferFor (openResultState s id) id).isSome
            then (openResultState s id).buffers
            else (openResultState s id).buffers ++ [(id, [])] }) := by
    rw [openSensor, hconn1]
  have hS2 : openResultState (openResultState s id) id =
      { openResultState s id with
        openHandles := (openResultState s id).openHandles ++
          [{ token := (openResultState s id).nextHandleToken, instanceId := id,
             descriptor := d, props := none }]
        nextHandleToken := (openResultState s id).nextHandleToken + 1
        buffers :=
          if (bufferFor (openResultState s id) id).isSome
          then (openResultState s id).buffers
          else (openResultState s id).buffers ++ [(id, [])] } := by
    rw [openResultState, hopen2]
  have hnt1 : (openResultState s id).nextHandleToken = s.nextHandleToken + 1 := by
    rw [hS1]
  have hH2 : (openResultState (openResultState s id) id).openHandles =
      s.openHandles ++
        [{ token := s.nextHandleToken, instanceId := id, descriptor := d, props := none }] ++
        [{ token := s.nextHandleToken + 1, instanceId := id, descriptor := d, props := none }] := by
    rw [hS2, hnt1, hS1]
  have hfindbase : ∀ t : Nat, s.nextHandleToken ≤ t →
      s.openHandles.find? (fun oh => oh.token == t) = none := by
    intro t ht
    refine List.find?_eq_none.mpr ?_
    intro x hx
    have := htok x hx
    simp only [beq_eq_false_iff_ne, ne_eq, beq_iff_eq, decide_eq_true_eq]
    omega
  have hlk1 : lookupHandle (updateSensors poll (openResultState (openResultState s id) id))
      s.nextHandleToken =
      some { token := s.nextHandleToken, instanceId := id, descriptor := d, props := none } := by
    show (openResultState (openResultState s id) id).openHandles.find?
      (fun oh => oh.token == s.nextHandleToken) = _
    rw [hH2, List.find?_append, List.find?_append, hfindbase s.nextHandleToken (le_refl _)]
    simp
  have hlk2 : lookupHandle (updateSensors poll (openResultState (openResultState s id) id))
      (s.nextHandleToken + 1) =
      some { token := s.nextHandleToken + 1, instanceId := id, descriptor := d, props := none } := by
    show (openResultState (openResultState s id) id).openHandles.find?
      (fun oh => oh.token == s.nextHandleToken + 1) = _
    rw [hH2, List.find?_append, List.find?_append,
      hfindbase (s.nextHandleToken + 1) (Nat.le_succ _)]
    simp
  refine ⟨hS1 ▸ hopen1, ?_, by omega, ?_⟩
  · rw [hopen2, ← hS2, hnt1]
  · rw [readSensor, readSensor, hlk1, hlk2]

theorem C3_double_open_witness :
    openSensor attachedOne 1 = .ok (1, openResultState attachedOne 1) ∧
    openSensor (openResultState attachedOne 1) 1 =
      .ok (2, openResultState (openResultState attachedOne 1) 1) ∧
    (1 : Nat) ≠ 2 ∧
    readSensor (updateSensors (fun _ => [5, 6, 7])
        (openResultState (openResultState attachedOne 1) 1)) 1 3 =
      readSensor (updateSensors (fun _ => [5, 6, 7])
        (openResultState (openResultState attachedOne 1) 1)) 2 3 :=
  C3_double_open_shared_buffer attachedOne 1 accelDesc (fun _ => [5, 6, 7]) 3
    (by decide) rfl

end SDLSensor
